import Mathlib

/-!
Verification of the Web-Researcher-Agent core (src/utils.py, src/researcher.py)
against its natural-language specification.

Strings are modelled as `List Char`.  Python integers are `Int`.  Wall-clock
time (datetime.now()) is an explicit `Int` parameter threaded through the
stateful operations.  External collaborators (the HTTP client `requests.get`,
the HTML-to-text extractor, the model-completion endpoint, the JSON parser and
the sha256 digest) are oracle parameters: the code surrounding them is
translated from the source.  Fallible Python code (statements that can raise)
is modelled with `Except (List Char)` carrying the exception text.
-/

/- ===================== src/utils.py ===================== -/

/-- Python whitespace characters recognised by `str.strip()` (the ASCII ones;
the source never feeds non-ASCII whitespace to `strip`). -/
def pyIsSpace (c : Char) : Bool :=
  c = ' ' || c = '\t' || c = '\n' || c = '\r' || c = '\x0b' || c = '\x0c'

/-- `listStartsWith p s` holds when `p` is an initial segment of `s`. -/
def listStartsWith : List Char → List Char → Bool
  | [], _ => true
  | _ :: _, [] => false
  | p :: ps, c :: cs => p = c && listStartsWith ps cs

/-- `utils.is_valid_url`: `re.match(r"^https?://", url) is not None`, i.e. the
string begins with the literal characters `http://` or `https://`. -/
def is_valid_url (url : List Char) : Bool :=
  listStartsWith ("http://".toList) url || listStartsWith ("https://".toList) url

/-- Python `range(start, stop, step)` as the list of indices it yields;
`step = 0` raises `ValueError`.  The count formulas are the standard
`max 0 (ceil ((stop-start)/step))` for either sign of `step`. -/
def pyRange (start stop step : Int) : Except (List Char) (List Int) :=
  if step = 0 then .error ("range() arg 3 must not be zero".toList)
  else if 0 < step then
    .ok ((List.range ((stop - start + step - 1) / step).toNat).map
      (fun (j : Nat) => start + step * (j : Int)))
  else
    .ok ((List.range ((start - stop + (-step) - 1) / (-step)).toNat).map
      (fun j => start - (-step) * (j : Int)))

/-- Python slice `t[i : i + n]` for a non-negative lower index `i` (the only
indices `chunk_text` produces); a non-positive `n` yields the empty slice. -/
def pySlice (t : List Char) (i n : Int) : List Char :=
  (t.drop i.toNat).take n.toNat

/-- `if chunk.strip():` — a string is truthy after `strip` exactly when it
contains a non-whitespace character. -/
def pyTruthyStrip (s : List Char) : Bool :=
  s.any (fun c => !(pyIsSpace c))

/-- `utils.chunk_text`: windows `text[i : i + chunk_size]` for
`i in range(0, len(text), chunk_size - overlap)`, keeping a window only when
`chunk.strip()` is truthy. -/
def chunk_text (text : List Char) (chunk_size overlap : Int) :
    Except (List Char) (List (List Char)) :=
  match pyRange 0 (text.length : Int) (chunk_size - overlap) with
  | .error e => .error e
  | .ok idxs =>
      .ok ((idxs.map (fun i => pySlice text i chunk_size)).filter pyTruthyStrip)

/-- The sliding windows of `chunk_text` before the whitespace filter, indexed
at the `Nat` level: window `j` is `(t.drop (j*s)).take n` where `s` is the
stride `chunk_size - overlap` and `n` is `chunk_size`. -/
def slidingWindows (t : List Char) (s n : Nat) : List (List Char) :=
  (List.range ((t.length + s - 1) / s)).map (fun j => (t.drop (j * s)).take n)

/-- Modelled from the spec's words, for the refinement half of the chunking
claim: "concatenating the non-overlapping portions of the chunks in order" —
of every chunk but the last, the part not overlapped by its successor is its
first `stride` characters; the last chunk is kept whole. -/
def joinNonOverlap (stride : Nat) (chunks : List (List Char)) : List Char :=
  (chunks.dropLast.map (fun c => c.take stride)).flatten ++
    (chunks.getLast?.getD [])

/- ===================== helper lemmas: prefixes ===================== -/

theorem listStartsWith_iff (p : List Char) : ∀ s : List Char,
    listStartsWith p s = true ↔ ∃ r, s = p ++ r := by
  induction p with
  | nil => intro s; simp [listStartsWith]
  | cons a p ih =>
    intro s
    cases s with
    | nil =>
      simp [listStartsWith]
    | cons b s' =>
      simp only [listStartsWith, Bool.and_eq_true, decide_eq_true_eq, ih,
        List.cons_append, List.cons.injEq]
      constructor
      · rintro ⟨rfl, r, rfl⟩; exact ⟨r, rfl, rfl⟩
      · rintro ⟨r, rfl, rfl⟩; exact ⟨rfl, r, rfl⟩


/- ===================== helper lemmas: chunking ===================== -/

theorem int_ceil_count (a b : Nat) (hb : 0 < b) :
    (((a : Int) - 0 + (b : Int) - 1) / (b : Int)).toNat = (a + b - 1) / b := by
  have h2 : ((a : Int) - 0 + (b : Int) - 1) = ((a + b - 1 : Nat) : Int) := by
    push_cast [Nat.cast_sub (by omega : 1 ≤ a + b)]
    ring
  rw [h2, ← Int.ofNat_ediv]
  norm_cast

theorem chunk_text_eq (t : List Char) (C O : Int) (h0 : 0 ≤ O) (h1 : O < C) :
    chunk_text t C O =
      .ok ((slidingWindows t (C - O).toNat C.toNat).filter pyTruthyStrip) := by
  have hpos : (0 : Int) < C - O := by omega
  have hs : C - O = ((C - O).toNat : Int) := (Int.toNat_of_nonneg (le_of_lt hpos)).symm
  unfold chunk_text pyRange
  rw [if_neg (by omega), if_pos hpos]
  show Except.ok _ = _
  congr 1
  rw [List.map_map]
  unfold slidingWindows
  have hcount : ((↑t.length - 0 + (C - O) - 1) / (C - O)).toNat
      = (t.length + (C - O).toNat - 1) / (C - O).toNat := by
    conv_lhs => rw [hs]
    exact int_ceil_count t.length (C - O).toNat (by omega)
  rw [hcount]
  congr 1
  apply List.map_congr_left
  intro j _
  show pySlice t (0 + (C - O) * (j : Int)) C = (t.drop (j * (C - O).toNat)).take C.toNat
  unfold pySlice
  have h3 : (0 + (C - O) * (j : Int)).toNat = j * (C - O).toNat := by
    have h4 : (0 + (C - O) * (j : Int)) = ((j * (C - O).toNat : Nat) : Int) := by
      conv_lhs => rw [hs]
      push_cast
      ring
    rw [h4]
    omega
  rw [h3]

theorem portions_flatten (s : Nat) (k : Nat) : ∀ t : List Char,
    ((List.range k).map (fun j => (t.drop (j * s)).take s)).flatten
      = t.take (k * s) := by
  induction k with
  | zero => intro t; simp
  | succ k ih =>
    intro t
    rw [List.range_succ_eq_map, List.map_cons, List.map_map, List.flatten_cons]
    have htail : (List.range k).map ((fun j => (t.drop (j * s)).take s) ∘ Nat.succ)
        = (List.range k).map (fun j => ((t.drop s).drop (j * s)).take s) := by
      apply List.map_congr_left
      intro j _
      show (t.drop (Nat.succ j * s)).take s = ((t.drop s).drop (j * s)).take s
      rw [List.drop_drop]
      congr 2
      rw [Nat.succ_mul]
      ring
    rw [htail, ih (t.drop s)]
    have hzero : (t.drop (0 * s)).take s = t.take s := by simp
    rw [hzero, ← List.take_add]
    congr 1
    ring

theorem windows_reconstruct (t : List Char) (s n : Nat)
    (hs : 0 < s) (hsn : s ≤ n) :
    joinNonOverlap s (slidingWindows t s n) = t := by
  rcases Nat.eq_zero_or_pos t.length with h0 | h0
  · have ht : t = [] := List.length_eq_zero.mp h0
    subst ht
    have hzero : (s - 1) / s = 0 := Nat.div_eq_of_lt (by omega)
    simp [slidingWindows, joinNonOverlap, hzero]
  · have hdm := Nat.div_add_mod (t.length + s - 1) s
    have hmlt := Nat.mod_lt (t.length + s - 1) hs
    have hkpos : 0 < (t.length + s - 1) / s := by
      apply Nat.div_pos <;> omega
    obtain ⟨k', hk'⟩ : ∃ k', (t.length + s - 1) / s = k' + 1 :=
      ⟨(t.length + s - 1) / s - 1, by omega⟩
    rw [hk'] at hdm
    have hexp : s * (k' + 1) = k' * s + s := by ring
    rw [hexp] at hdm
    have hlow : k' * s < t.length := by omega
    have hhigh : t.length ≤ k' * s + s := by omega
    unfold slidingWindows
    rw [hk', List.range_succ, List.map_append, List.map_cons, List.map_nil]
    unfold joinNonOverlap
    rw [List.dropLast_concat, List.getLast?_concat, Option.getD_some, List.map_map]
    have hmaps : (List.range k').map
          ((fun c => c.take s) ∘ fun j => (t.drop (j * s)).take n)
        = (List.range k').map (fun j => (t.drop (j * s)).take s) := by
      apply List.map_congr_left
      intro j _
      show ((t.drop (j * s)).take n).take s = (t.drop (j * s)).take s
      rw [List.take_take, inf_eq_left.mpr hsn]
    rw [hmaps, portions_flatten]
    have hlast : (t.drop (k' * s)).take n = t.drop (k' * s) := by
      apply List.take_of_length_le
      rw [List.length_drop]
      omega
    rw [hlast, List.take_append_drop]

/- ===================== claims C7, C4, C10 ===================== -/

/-- C7: `is_valid_url` accepts a string exactly when it begins with the
literal characters `http://` or `https://` — it rejects every string without
such a beginning and accepts every string with one regardless of deeper
malformedness; in particular the bare string `https://` is accepted. -/
theorem c7_is_valid_url_characterisation (url : List Char) :
    (is_valid_url url = true ↔
      ((∃ r, url = ("http://".toList) ++ r) ∨
        (∃ r, url = ("https://".toList) ++ r))) ∧
    is_valid_url ("https://".toList) = true := by
  constructor
  · unfold is_valid_url
    rw [Bool.or_eq_true, listStartsWith_iff, listStartsWith_iff]
  · decide

/-- C4 counterexample: for the text `"a   b"` with `chunk_size = 1`,
`overlap = 0` the all-whitespace windows are dropped, the produced chunks are
`["a", "b"]`, and concatenating the non-overlapping portions of the chunks
yields `"ab"`, which does not reconstruct the original text. -/
theorem c4_counterexample :
    (chunk_text ("a   b".toList) 1 0).toOption = some [("a".toList), ("b".toList)] ∧
    joinNonOverlap 1 [("a".toList), ("b".toList)] ≠ ("a   b".toList) := by
  decide

/-- C4 (amended): for `0 ≤ O < C` chunking succeeds, every produced chunk has
length at most `C`, and — provided no sliding window of the text consists
entirely of whitespace (such windows are dropped, which is what refutes the
original claim) — concatenating the non-overlapping portions of the chunks in
order reconstructs the original text. -/
theorem c4_chunk_bound_and_reconstruct (t : List Char) (C O : Int)
    (h0 : 0 ≤ O) (h1 : O < C) :
    ∃ chunks, chunk_text t C O = .ok chunks ∧
      (∀ c ∈ chunks, (c.length : Int) ≤ C) ∧
      ((slidingWindows t (C - O).toNat C.toNat).all pyTruthyStrip = true →
        joinNonOverlap (C - O).toNat chunks = t) := by
  refine ⟨_, chunk_text_eq t C O h0 h1, ?_, ?_⟩
  · intro c hc
    have hc2 := List.mem_of_mem_filter hc
    unfold slidingWindows at hc2
    obtain ⟨j, _, rfl⟩ := List.mem_map.mp hc2
    have hlen := List.length_take_le C.toNat (t.drop (j * (C - O).toNat))
    omega
  · intro hall
    rw [List.filter_eq_self.mpr (fun a ha => List.all_eq_true.mp hall a ha)]
    exact windows_reconstruct t _ _ (by omega) (by omega)

/-- C4 witness: concrete instance of the amended claim at `"abcdefgh"`,
`chunk_size = 3`, `overlap = 1`. -/
theorem c4_witness :
    (0 : Int) ≤ 1 ∧ (1 : Int) < 3 ∧
    (∃ chunks, chunk_text ("abcdefgh".toList) 3 1 = .ok chunks ∧
      (∀ c ∈ chunks, (c.length : Int) ≤ 3) ∧
      ((slidingWindows ("abcdefgh".toList) ((3 : Int) - 1).toNat (3 : Int).toNat).all
          pyTruthyStrip = true →
        joinNonOverlap ((3 : Int) - 1).toNat chunks = ("abcdefgh".toList))) :=
  ⟨by decide, by decide,
    c4_chunk_bound_and_reconstruct ("abcdefgh".toList) 3 1 (by decide) (by decide)⟩

/-- C10: with `chunk_size > 0` and `overlap ≥ 0`: when `overlap < chunk_size`
the stride is strictly positive and `chunk_text` terminates with a finite list
(of at most `length text` chunks); with `overlap = chunk_size` the stride is
zero (Python's `range` raises `ValueError`); with `overlap > chunk_size` the
function returns the empty list even for non-empty text. -/
theorem c10_chunk_text_totality (t : List Char) (C O : Int)
    (hC : 0 < C) (hO : 0 ≤ O) :
    (O < C → ∃ l, chunk_text t C O = .ok l ∧ l.length ≤ t.length) ∧
    (O = C → chunk_text t C O = .error ("range() arg 3 must not be zero".toList)) ∧
    (C < O → chunk_text t C O = .ok []) := by
  refine ⟨?_, ?_, ?_⟩
  · intro h1
    refine ⟨_, chunk_text_eq t C O hO h1, ?_⟩
    have hstep : 0 < (C - O).toNat := by omega
    have hb1 : (List.filter pyTruthyStrip (slidingWindows t (C - O).toNat C.toNat)).length
        ≤ (slidingWindows t (C - O).toNat C.toNat).length :=
      List.length_filter_le _ _
    have hb2 : (slidingWindows t (C - O).toNat C.toNat).length
        = (t.length + (C - O).toNat - 1) / (C - O).toNat := by
      unfold slidingWindows
      rw [List.length_map, List.length_range]
    have hb3 : (t.length + (C - O).toNat - 1) / (C - O).toNat ≤ t.length := by
      rw [Nat.div_le_iff_le_mul_add_pred hstep]
      have := Nat.le_mul_of_pos_left t.length hstep
      omega
    omega
  · intro h2
    have hz : C - O = 0 := by omega
    simp [chunk_text, pyRange, hz]
  · intro h3
    unfold chunk_text pyRange
    rw [if_neg (by omega), if_neg (by omega)]
    have hcount : ((0 - (t.length : Int) + (-(C - O)) - 1) / (-(C - O))).toNat = 0 := by
      rw [Int.toNat_eq_zero]
      rcases le_or_lt 0 (0 - (t.length : Int) + (-(C - O)) - 1) with hnum | hnum
      · exact le_of_eq (Int.ediv_eq_zero_of_lt hnum (by omega))
      · exact le_of_lt (Int.ediv_neg' hnum (by omega))
    rw [hcount]
    simp

/-- C10 witness: concrete instance at `"ab"`, `chunk_size = 2`, `overlap = 1`. -/
theorem c10_witness :
    (0 : Int) < 2 ∧ (0 : Int) ≤ 1 ∧
    ((1 : Int) < 2 → ∃ l, chunk_text ("ab".toList) 2 1 = .ok l ∧
        l.length ≤ ("ab".toList).length) ∧
    ((1 : Int) = 2 →
      chunk_text ("ab".toList) 2 1 = .error ("range() arg 3 must not be zero".toList)) ∧
    ((2 : Int) < 1 → chunk_text ("ab".toList) 2 1 = .ok []) :=
  ⟨by decide, by decide, c10_chunk_text_totality ("ab".toList) 2 1 (by decide) (by decide)⟩

/- ===================== src/researcher.py : ContentCache ===================== -/

/-- `researcher.ContentCache`: in-memory cache mapping a string key to
`{"value": v, "expires": now + timedelta(seconds=ttl)}`.  The Python dict is
modelled as an insertion-ordered association list with unique keys; the value
type is a parameter because the cache stores opaque values (`Any`). -/
structure ContentCache (α : Type) where
  ttl : Int
  entries : List (List Char × α × Int)
deriving DecidableEq

/-- `ContentCache.get`: return the stored value when the key is present and
`now < expires`; otherwise delete the stale entry (lazy expiry) and return
absent.  `now` is the explicit model of `datetime.now()`. -/
def ContentCache.get {α : Type} (c : ContentCache α) (key : List Char)
    (now : Int) : Option α × ContentCache α :=
  match c.entries.find? (fun e => e.1 == key) with
  | some e =>
      if now < e.2.2 then (some e.2.1, c)
      else (none, ⟨c.ttl, c.entries.filter (fun e => !(e.1 == key))⟩)
  | none => (none, c)

/-- `ContentCache.set`: store `value` under `key` with
`expires = now + ttl`, overwriting any existing entry unconditionally
(Python dict assignment keeps the original position of an existing key and
appends a new one). -/
def ContentCache.set {α : Type} (c : ContentCache α) (key : List Char)
    (value : α) (now : Int) : ContentCache α :=
  if c.entries.any (fun e => e.1 == key) then
    ⟨c.ttl, c.entries.map (fun e => if e.1 == key then (key, value, now + c.ttl) else e)⟩
  else
    ⟨c.ttl, c.entries ++ [(key, value, now + c.ttl)]⟩

/-- `ContentCache.clear`: remove all entries. -/
def ContentCache.clear {α : Type} (c : ContentCache α) : ContentCache α :=
  ⟨c.ttl, []⟩

/- ===================== helper lemmas: cache ===================== -/

theorem find?_overwrite {α : Type} (key : List Char) (v : α) (exp : Int) :
    ∀ l : List (List Char × α × Int), l.any (fun e => e.1 == key) = true →
      (l.map (fun e => if e.1 == key then (key, v, exp) else e)).find?
        (fun e => e.1 == key) = some (key, v, exp) := by
  intro l
  induction l with
  | nil => simp
  | cons e tl ih =>
    intro h
    by_cases he : (e.1 == key) = true
    · rw [List.map_cons, if_pos he]
      exact List.find?_cons_of_pos _ (by simp)
    · have hfe : (e.1 == key) = false := by
        rw [← Bool.not_eq_true]
        exact he
      rw [List.map_cons, if_neg he,
        @List.find?_cons_of_neg _ (fun x => x.1 == key) e _ he]
      apply ih
      rw [List.any_cons, hfe, Bool.false_or] at h
      exact h

theorem find?_append_new {α : Type} (key : List Char) (v : α) (exp : Int) :
    ∀ l : List (List Char × α × Int), l.any (fun e => e.1 == key) = false →
      (l ++ [(key, v, exp)]).find? (fun e => e.1 == key) = some (key, v, exp) := by
  intro l
  induction l with
  | nil => exact fun _ => List.find?_cons_of_pos _ (by simp)
  | cons e tl ih =>
    intro h
    have hfe : (e.1 == key) = false := by
      cases hx : (e.1 == key) with
      | false => rfl
      | true =>
        rw [List.any_cons, hx, Bool.true_or] at h
        exact absurd h (by simp)
    rw [List.cons_append,
      @List.find?_cons_of_neg _ (fun x => x.1 == key) e _ (by simp [hfe])]
    apply ih
    rw [List.any_cons, hfe, Bool.false_or] at h
    exact h

theorem find?_set {α : Type} (c : ContentCache α) (key : List Char) (v : α)
    (now : Int) :
    ((c.set key v now).entries).find? (fun e => e.1 == key)
      = some (key, v, now + c.ttl) := by
  unfold ContentCache.set
  by_cases h : c.entries.any (fun e => e.1 == key) = true
  · rw [if_pos h]
    exact find?_overwrite key v _ c.entries h
  · rw [if_neg h]
    have hfalse : c.entries.any (fun e => e.1 == key) = false := by
      cases hx : c.entries.any (fun e => e.1 == key) with
      | false => rfl
      | true => exact absurd hx h
    exact find?_append_new key v _ c.entries hfalse

/- ===================== claims C5, C6 ===================== -/

/-- C6: for every cache with `ttl > 0` and every key and value, `get`
performed immediately after `set` (same `now`) returns the stored value
unchanged. -/
theorem c6_get_after_set_within_ttl {α : Type} (c : ContentCache α)
    (key : List Char) (v : α) (t : Int) (httl : 0 < c.ttl) :
    ((c.set key v t).get key t).1 = some v := by
  have hf := find?_set c key v t
  unfold ContentCache.get
  rw [hf]
  have hlt : t < t + c.ttl := by omega
  simp [hlt]

/-- C6 witness: a fresh `ttl = 60` cache stores and returns `"value1"`. -/
theorem c6_witness :
    (0 : Int) < (⟨60, []⟩ : ContentCache (List Char)).ttl ∧
    (((⟨60, []⟩ : ContentCache (List Char)).set ("key1".toList) ("value1".toList) 0).get
        ("key1".toList) 0).1 = some ("value1".toList) :=
  ⟨by decide,
    c6_get_after_set_within_ttl (⟨60, []⟩ : ContentCache (List Char))
      ("key1".toList) ("value1".toList) 0 (by decide)⟩

/-- C5: for a cache with `ttl = 0`, `get` performed at any strictly positive
delay after `set` returns absent, and the stale entry is removed from the
mapping as a side effect. -/
theorem c5_ttl_zero_expires_immediately {α : Type} (c : ContentCache α)
    (key : List Char) (v : α) (t d : Int) (httl : c.ttl = 0) (hd : 0 < d) :
    ((c.set key v t).get key (t + d)).1 = none ∧
    (((c.set key v t).get key (t + d)).2.entries.all
        (fun e => !(e.1 == key))) = true := by
  have hf := find?_set c key v t
  rw [httl, add_zero] at hf
  have hnot : ¬ (t + d < t) := by omega
  constructor
  · unfold ContentCache.get
    rw [hf]
    simp [hnot]
  · unfold ContentCache.get
    rw [hf]
    simp only [if_neg hnot]
    exact List.all_eq_true.mpr (fun e he => (List.mem_filter.mp he).2)

/-- C5 witness: a `ttl = 0` cache expires its entry on the first read after
any positive delay. -/
theorem c5_witness :
    (⟨0, []⟩ : ContentCache (List Char)).ttl = 0 ∧ (0 : Int) < 1 ∧
    ((((⟨0, []⟩ : ContentCache (List Char)).set ("key1".toList) ("value1".toList) 0).get
        ("key1".toList) (0 + 1)).1 = none ∧
      (((((⟨0, []⟩ : ContentCache (List Char)).set ("key1".toList) ("value1".toList) 0).get
          ("key1".toList) (0 + 1)).2.entries.all (fun e => !(e.1 == ("key1".toList))))
        = true)) :=
  ⟨rfl, by decide,
    c5_ttl_zero_expires_immediately (⟨0, []⟩ : ContentCache (List Char))
      ("key1".toList) ("value1".toList) 0 1 rfl (by decide)⟩

/- ===================== src/researcher.py : WebResearcher ===================== -/

/-- A Python result dict as passed around the pipeline.  Every field is
`Option` because a Python dict carries only the keys that were set:
`fetch_url_content` sets `status/url/content/status_code/headers` on success
and `status/url/error` on error; `fetch_and_summarize` builds
`url/status/summary/content_preview` on success and `error/url` on the
invalid-URL and empty-content paths. -/
structure ResultRecord where
  url : Option (List Char)
  status : Option (List Char)
  content : Option (List Char)
  status_code : Option Int
  headers : Option (List (List Char × List Char))
  summary : Option (List Char)
  content_preview : Option (List Char)
  error : Option (List Char)
deriving DecidableEq

/-- The empty Python dict (no keys set). -/
def ResultRecord.empty : ResultRecord :=
  ⟨none, none, none, none, none, none, none, none⟩

/-- Python truthiness of a dict (`if cached:`): non-empty, i.e. at least one
key present. -/
def ResultRecord.isTruthy (r : ResultRecord) : Bool :=
  r.url.isSome || r.status.isSome || r.content.isSome || r.status_code.isSome ||
    r.headers.isSome || r.summary.isSome || r.content_preview.isSome || r.error.isSome

/-- The response object of the external HTTP collaborator `requests.get`. -/
structure PyResponse where
  status_code : Int
  reason : List Char
  text : List Char
  headers : List (List Char × List Char)
deriving DecidableEq

/-- `str(e)` for a requests `HTTPError` raised by `raise_for_status`, e.g.
`404 Client Error: Not Found for url: http://x`. -/
def httpErrorText (code : Int) (reason url : List Char) : List Char :=
  (toString code).toList ++
    (if code < 500 then " Client Error: " else " Server Error: ").toList ++
    reason ++ (" for url: ".toList) ++ url

/-- `utils.fetch_url_content`: wraps the external `requests.get` (oracle
`requestsGet`, returning either a raised `RequestException` text or a
response) and the external HTML-to-text extractor (oracle `extract`,
standing for `extract_text_from_html`).  `raise_for_status` raises
`HTTPError` for 4xx/5xx codes; both raises are caught by the single
`except requests.RequestException` clause, which returns the error record. -/
def fetch_url_content
    (requestsGet : List Char → Int → Except (List Char) PyResponse)
    (extract : List Char → List Char)
    (url : List Char) (timeout : Int) : ResultRecord :=
  match requestsGet url timeout with
  | .error e =>
      { ResultRecord.empty with
          status := some ("error".toList), url := some url, error := some e }
  | .ok resp =>
      if 400 ≤ resp.status_code ∧ resp.status_code < 600 then
        { ResultRecord.empty with
            status := some ("error".toList), url := some url,
            error := some (httpErrorText resp.status_code resp.reason url) }
      else
        { ResultRecord.empty with
            status := some ("success".toList), url := some url,
            content := some (extract resp.text),
            status_code := some resp.status_code,
            headers := some resp.headers }

/-- The prompt of one `_summarize_content` model call (this f-string has only
the `{chunk}` replacement field, so it formats without error). -/
def summarizePrompt (chunk : List Char) : List Char :=
  ("Please provide a concise summary of the following content:\n\n".toList) ++
    chunk ++ ("\n\nSummary should be 2-3 sentences max.".toList)

/-- `WebResearcher._summarize_content`: chunk the content with
`chunk_size = 3000` (and the default `overlap = 100`; the stride `2900` is
positive, so `chunk_text` cannot raise here), keep the first three chunks,
issue one model call per chunk (oracle `complete`, the reply text of
`client.messages.create`, assumed to return one non-empty content block) and
join the replies with single spaces. -/
def summarize_content (complete : List Char → List Char) (content : List Char) :
    List Char :=
  List.intercalate (" ".toList)
    ((((chunk_text content 3000 100).toOption.getD []).take 3).map
      (fun chunk => complete (summarizePrompt chunk)))

/-- The mutable state of a `WebResearcher` that the claims depend on: the
optional content cache (`none` when `config.cache_enabled` is false) and the
source list.  (`research_history` and the immutable config fields play no
role in the claims.) -/
structure ResearcherState where
  cache : Option (ContentCache ResultRecord)
  sources : List (List Char)
deriving DecidableEq

/-- `WebResearcher.__init__`: `ContentCache(ttl=config.cache_ttl)` when
caching is enabled, otherwise no cache; sources start empty. -/
def WebResearcher.init (cache_enabled : Bool) (cache_ttl : Int) : ResearcherState :=
  ⟨if cache_enabled then some ⟨cache_ttl, []⟩ else none, []⟩

/-- The fall-through part of `fetch_and_summarize` after URL validation and a
cache miss: fetch, check status, check content, summarize, build the success
record, cache it, and append the URL to the sources if absent.  Returned
`Nat` counts the `fetch_url_content` calls this invocation performed. -/
def fetch_and_summarize_miss
    (hash_content : List Char → List Char)
    (requestsGet : List Char → Int → Except (List Char) PyResponse)
    (extract : List Char → List Char)
    (complete : List Char → List Char)
    (timeout now : Int) (url : List Char) (st1 : ResearcherState) :
    ResultRecord × ResearcherState × Nat :=
  let fetch_result := fetch_url_content requestsGet extract url timeout
  if fetch_result.status = some ("error".toList) then
    (fetch_result, st1, 1)
  else
    let content := fetch_result.content.getD []
    if content = [] then
      ({ ResultRecord.empty with
          error := some ("No content extracted".toList), url := some url }, st1, 1)
    else
      let result : ResultRecord :=
        { ResultRecord.empty with
            url := some url, status := some ("success".toList),
            summary := some (summarize_content complete content),
            content_preview := some (content.take 500) }
      let st2 : ResearcherState :=
        match st1.cache with
        | some c => ⟨some (c.set (hash_content url) result now), st1.sources⟩
        | none => st1
      let st3 : ResearcherState :=
        if url ∈ st2.sources then st2 else ⟨st2.cache, st2.sources ++ [url]⟩
      (result, st3, 1)

/-- `WebResearcher.fetch_and_summarize`: validate the URL (fail fast with
`{"error": f"Invalid URL: {url}", "url": url}`), then — when a cache is
present — look up `hash_content(url)` (the lookup may lazily evict an
expired entry) and return a truthy cached value verbatim; otherwise fall
through to `fetch_and_summarize_miss`.  The oracle `hash_content` stands for
the sha256 hex digest of `utils.hash_content`. -/
def fetch_and_summarize
    (hash_content : List Char → List Char)
    (requestsGet : List Char → Int → Except (List Char) PyResponse)
    (extract : List Char → List Char)
    (complete : List Char → List Char)
    (timeout now : Int) (url : List Char) (st : ResearcherState) :
    ResultRecord × ResearcherState × Nat :=
  if is_valid_url url then
    match st.cache with
    | some c =>
        match (c.get (hash_content url) now).1 with
        | some v =>
            if v.isTruthy then
              (v, ⟨some (c.get (hash_content url) now).2, st.sources⟩, 0)
            else fetch_and_summarize_miss hash_content requestsGet extract
              complete timeout now url ⟨some (c.get (hash_content url) now).2, st.sources⟩
        | none => fetch_and_summarize_miss hash_content requestsGet extract
            complete timeout now url ⟨some (c.get (hash_content url) now).2, st.sources⟩
    | none => fetch_and_summarize_miss hash_content requestsGet extract
        complete timeout now url st
  else
    ({ ResultRecord.empty with
        error := some (("Invalid URL: ".toList) ++ url), url := some url }, st, 0)

/- ===================== claims C3, C8, C9 ===================== -/

/-- C3 counterexample: `fetch_and_summarize("not-a-url")` does return error
text and the offending URL with no fetch attempted, but the record carries no
`status` key at all — the "status flag" part of the claim fails (the record
is treated as an error only because it lacks `"status": "success"`). -/
theorem c3_counterexample :
    ((fetch_and_summarize (fun s => s) (fun _ _ => .error ("boom".toList))
        (fun s => s) (fun s => s) 30 0 ("not-a-url".toList)
        (WebResearcher.init true 3600)).1.status = none) ∧
    ((fetch_and_summarize (fun s => s) (fun _ _ => .error ("boom".toList))
        (fun s => s) (fun s => s) 30 0 ("not-a-url".toList)
        (WebResearcher.init true 3600)).1.error
      = some (("Invalid URL: not-a-url").toList)) ∧
    ((fetch_and_summarize (fun s => s) (fun _ _ => .error ("boom".toList))
        (fun s => s) (fun s => s) 30 0 ("not-a-url".toList)
        (WebResearcher.init true 3600)).2.2 = 0) := by
  decide

/-- C3 (amended): for every URL failing validation, `fetch_and_summarize`
fails fast, performing no fetch and leaving the state untouched, and returns
the record `{"error": f"Invalid URL: {url}", "url": url}` — which carries the
human-readable error text and the offending URL but no explicit status flag
(it counts as an error only by lacking `"status": "success"`). -/
theorem c3_invalid_url_fails_fast
    (hash_content : List Char → List Char)
    (requestsGet : List Char → Int → Except (List Char) PyResponse)
    (extract complete : List Char → List Char)
    (timeout now : Int) (url : List Char) (st : ResearcherState)
    (hinvalid : is_valid_url url = false) :
    fetch_and_summarize hash_content requestsGet extract complete timeout now url st
      = ({ ResultRecord.empty with
            error := some (("Invalid URL: ".toList) ++ url),
            url := some url }, st, 0) := by
  unfold fetch_and_summarize
  rw [if_neg (by simp [hinvalid])]

/-- C3 witness: concrete instance of the amended claim at `"not-a-url"`. -/
theorem c3_witness :
    is_valid_url ("not-a-url".toList) = false ∧
    fetch_and_summarize (fun s => s) (fun _ _ => .error ("boom".toList))
        (fun s => s) (fun s => s) 30 0 ("not-a-url".toList)
        (WebResearcher.init true 3600)
      = ({ ResultRecord.empty with
            error := some (("Invalid URL: ".toList) ++ ("not-a-url".toList)),
            url := some ("not-a-url".toList) },
          WebResearcher.init true 3600, 0) :=
  ⟨by decide,
    c3_invalid_url_fails_fast (fun s => s) (fun _ _ => .error ("boom".toList))
      (fun s => s) (fun s => s) 30 0 ("not-a-url".toList)
      (WebResearcher.init true 3600) (by decide)⟩

/-- The entries of the researcher's cache mapping (empty when caching is
disabled). -/
def cacheEntries (st : ResearcherState) : List (List Char × ResultRecord × Int) :=
  (st.cache.map ContentCache.entries).getD []

theorem get_entries_sublist {α : Type} (c : ContentCache α) (key : List Char)
    (now : Int) : ((c.get key now).2).entries.Sublist c.entries := by
  unfold ContentCache.get
  cases hf : c.entries.find? (fun e => e.1 == key) with
  | none => exact List.Sublist.refl _
  | some e =>
    by_cases hlt : now < e.2.2
    · show ((if now < e.2.2 then (some e.2.1, c)
        else (none, ⟨c.ttl, c.entries.filter (fun e => !(e.1 == key))⟩)).2.entries).Sublist
        c.entries
      rw [if_pos hlt]
    · show ((if now < e.2.2 then (some e.2.1, c)
        else (none, ⟨c.ttl, c.entries.filter (fun e => !(e.1 == key))⟩)).2.entries).Sublist
        c.entries
      rw [if_neg hlt]
      exact List.filter_sublist _

theorem miss_cache_change
    (hash_content : List Char → List Char)
    (requestsGet : List Char → Int → Except (List Char) PyResponse)
    (extract complete : List Char → List Char)
    (timeout now : Int) (url : List Char) (st1 : ResearcherState) :
    ((fetch_and_summarize_miss hash_content requestsGet extract complete
        timeout now url st1).1.status = some ("success".toList)) ∨
    ((fetch_and_summarize_miss hash_content requestsGet extract complete
        timeout now url st1).2.1 = st1) := by
  unfold fetch_and_summarize_miss
  by_cases h1 : (fetch_url_content requestsGet extract url timeout).status
      = some ("error".toList)
  · right
    rw [if_pos h1]
  · by_cases h2 : (fetch_url_content requestsGet extract url timeout).content.getD [] = []
    · right
      rw [if_neg h1, if_pos h2]
    · left
      rw [if_neg h1, if_neg h2]

theorem fetch_cache_change
    (hash_content : List Char → List Char)
    (requestsGet : List Char → Int → Except (List Char) PyResponse)
    (extract complete : List Char → List Char)
    (timeout now : Int) (url : List Char) (st : ResearcherState) :
    ((fetch_and_summarize hash_content requestsGet extract complete
        timeout now url st).1.status = some ("success".toList)) ∨
    (cacheEntries ((fetch_and_summarize hash_content requestsGet extract complete
        timeout now url st).2.1)).Sublist (cacheEntries st) := by
  unfold fetch_and_summarize
  by_cases hv : is_valid_url url = true
  · rw [if_pos hv]
    split
    · rename_i c heq
      have hsub := get_entries_sublist c (hash_content url) now
      have hce : cacheEntries st = c.entries := by
        simp [cacheEntries, heq]
      split
      · rename_i v hl
        by_cases ht : v.isTruthy = true
        · rw [if_pos ht]
          refine Or.inr ?_
          show ((c.get (hash_content url) now).2.entries).Sublist (cacheEntries st)
          rw [hce]
          exact hsub
        · rw [if_neg ht]
          rcases miss_cache_change hash_content requestsGet extract complete
              timeout now url
              (⟨some (c.get (hash_content url) now).2, st.sources⟩ : ResearcherState)
            with hs | hst
          · exact Or.inl hs
          · refine Or.inr ?_
            rw [hst]
            show ((c.get (hash_content url) now).2.entries).Sublist (cacheEntries st)
            rw [hce]
            exact hsub
      · rcases miss_cache_change hash_content requestsGet extract complete
            timeout now url
            (⟨some (c.get (hash_content url) now).2, st.sources⟩ : ResearcherState)
          with hs | hst
        · exact Or.inl hs
        · refine Or.inr ?_
          rw [hst]
          show ((c.get (hash_content url) now).2.entries).Sublist (cacheEntries st)
          rw [hce]
          exact hsub
    · rcases miss_cache_change hash_content requestsGet extract complete
          timeout now url st with hs | hst
      · exact Or.inl hs
      · refine Or.inr ?_
        rw [hst]
  · rw [if_neg hv]
    exact Or.inr (List.Sublist.refl _)

/-- C8 counterexample: on a fetch-failure path the cache mapping is *not*
left exactly as it was before the call — the cache lookup lazily evicts an
expired entry, so the mapping differs even though the call only returned an
error record and stored nothing. -/
theorem c8_counterexample :
    ((fetch_and_summarize (fun s => s) (fun _ _ => .error ("boom".toList))
        (fun s => s) (fun s => s) 30 10 ("http://x".toList)
        (⟨some ⟨0, [(("http://x".toList),
            { ResultRecord.empty with url := some ("http://x".toList) }, 5)]⟩,
          []⟩ : ResearcherState)).1.status = some ("error".toList)) ∧
    ((fetch_and_summarize (fun s => s) (fun _ _ => .error ("boom".toList))
        (fun s => s) (fun s => s) 30 10 ("http://x".toList)
        (⟨some ⟨0, [(("http://x".toList),
            { ResultRecord.empty with url := some ("http://x".toList) }, 5)]⟩,
          []⟩ : ResearcherState)).2.1.cache
      ≠ some ⟨0, [(("http://x".toList),
            { ResultRecord.empty with url := some ("http://x".toList) }, 5)]⟩) := by
  decide

/-- C8 (amended): on every path that does not return a success record —
invalid URL, fetch failure, empty extracted content — nothing is stored in
the cache: the resulting cache mapping is a sublist of the prior one
(unchanged except that the cache lookup may have lazily evicted an expired
entry for the requested key). -/
theorem c8_error_paths_store_nothing
    (hash_content : List Char → List Char)
    (requestsGet : List Char → Int → Except (List Char) PyResponse)
    (extract complete : List Char → List Char)
    (timeout now : Int) (url : List Char) (st : ResearcherState)
    (herr : (fetch_and_summarize hash_content requestsGet extract complete
        timeout now url st).1.status ≠ some ("success".toList)) :
    (cacheEntries ((fetch_and_summarize hash_content requestsGet extract complete
        timeout now url st).2.1)).Sublist (cacheEntries st) :=
  (fetch_cache_change hash_content requestsGet extract complete
    timeout now url st).resolve_left herr

/-- C8 witness: concrete instance on the invalid-URL error path. -/
theorem c8_witness :
    ((fetch_and_summarize (fun s => s) (fun _ _ => .error ("boom".toList))
        (fun s => s) (fun s => s) 30 0 ("not-a-url".toList)
        (WebResearcher.init true 3600)).1.status ≠ some ("success".toList)) ∧
    (cacheEntries ((fetch_and_summarize (fun s => s)
        (fun _ _ => .error ("boom".toList)) (fun s => s) (fun s => s) 30 0
        ("not-a-url".toList) (WebResearcher.init true 3600)).2.1)).Sublist
      (cacheEntries (WebResearcher.init true 3600)) :=
  ⟨by decide,
    c8_error_paths_store_nothing (fun s => s) (fun _ _ => .error ("boom".toList))
      (fun s => s) (fun s => s) 30 0 ("not-a-url".toList)
      (WebResearcher.init true 3600) (by decide)⟩

/- ===================== claim C9 ===================== -/

theorem miss_sources_nodup
    (hash_content : List Char → List Char)
    (requestsGet : List Char → Int → Except (List Char) PyResponse)
    (extract complete : List Char → List Char)
    (timeout now : Int) (url : List Char) (st1 : ResearcherState)
    (h : st1.sources.Nodup) :
    ((fetch_and_summarize_miss hash_content requestsGet extract complete
        timeout now url st1).2.1).sources.Nodup := by
  unfold fetch_and_summarize_miss
  by_cases h1 : (fetch_url_content requestsGet extract url timeout).status
      = some ("error".toList)
  · rw [if_pos h1]
    exact h
  · rw [if_neg h1]
    by_cases h2 : (fetch_url_content requestsGet extract url timeout).content.getD [] = []
    · rw [if_pos h2]
      exact h
    · rw [if_neg h2]
      split
      · rename_i c heq
        by_cases hm : url ∈ st1.sources
        · simp [hm, h]
        · simp [hm, List.nodup_append, h]
      · by_cases hm : url ∈ st1.sources
        · simp [hm, h]
        · simp [hm, List.nodup_append, h]

theorem fetch_sources_nodup
    (hash_content : List Char → List Char)
    (requestsGet : List Char → Int → Except (List Char) PyResponse)
    (extract complete : List Char → List Char)
    (timeout now : Int) (url : List Char) (st : ResearcherState)
    (h : st.sources.Nodup) :
    ((fetch_and_summarize hash_content requestsGet extract complete
        timeout now url st).2.1).sources.Nodup := by
  unfold fetch_and_summarize
  by_cases hv : is_valid_url url = true
  · rw [if_pos hv]
    split
    · rename_i c heq
      split
      · rename_i v hl
        by_cases ht : v.isTruthy = true
        · rw [if_pos ht]
          exact h
        · rw [if_neg ht]
          exact miss_sources_nodup hash_content requestsGet extract complete
            timeout now url _ h
      · exact miss_sources_nodup hash_content requestsGet extract complete
          timeout now url _ h
    · exact miss_sources_nodup hash_content requestsGet extract complete
        timeout now url _ h
  · rw [if_neg hv]
    exact h

/-- One invocation of the per-URL pipeline: the oracles, the wall-clock time
and the URL of a single `fetch_and_summarize` call. -/
structure CallInput where
  requestsGet : List Char → Int → Except (List Char) PyResponse
  extract : List Char → List Char
  complete : List Char → List Char
  timeout : Int
  now : Int
  url : List Char

/-- Run a sequence of `fetch_and_summarize` calls, threading the researcher
state. -/
def runCalls (hash_content : List Char → List Char) (calls : List CallInput)
    (st : ResearcherState) : ResearcherState :=
  calls.foldl
    (fun s c => (fetch_and_summarize hash_content c.requestsGet c.extract
      c.complete c.timeout c.now c.url s).2.1) st

theorem runCalls_nodup (hash_content : List Char → List Char)
    (calls : List CallInput) :
    ∀ st : ResearcherState, st.sources.Nodup →
      ((runCalls hash_content calls st).sources).Nodup := by
  induction calls with
  | nil =>
    intro st h
    exact h
  | cons ch tl ih =>
    intro st h
    exact ih _ (fetch_sources_nodup hash_content ch.requestsGet ch.extract
      ch.complete ch.timeout ch.now ch.url st h)

/-- C9: starting from a freshly initialised researcher, after any sequence of
`fetch_and_summarize` calls (any URLs, any oracle behaviours, any times) no
URL occurs twice in the source list — the append is guarded by a membership
test, so the list stays de-duplicated. -/
theorem c9_sources_deduplicated (hash_content : List Char → List Char)
    (cache_enabled : Bool) (cache_ttl : Int) (calls : List CallInput) :
    ((runCalls hash_content calls
        (WebResearcher.init cache_enabled cache_ttl)).sources).Nodup :=
  runCalls_nodup hash_content calls _ List.nodup_nil

/- ===================== claim C2 ===================== -/

theorem fetch_url_content_ok
    (requestsGet : List Char → Int → Except (List Char) PyResponse)
    (extract : List Char → List Char) (url : List Char) (timeout : Int)
    (resp : PyResponse)
    (hfetch : requestsGet url timeout = .ok resp)
    (hcode : ¬ (400 ≤ resp.status_code ∧ resp.status_code < 600)) :
    fetch_url_content requestsGet extract url timeout
      = { ResultRecord.empty with
          status := some ("success".toList), url := some url,
          content := some (extract resp.text),
          status_code := some resp.status_code,
          headers := some resp.headers } := by
  unfold fetch_url_content
  rw [hfetch]
  show (if 400 ≤ resp.status_code ∧ resp.status_code < 600 then _ else _) = _
  rw [if_neg hcode]

theorem get_singleton_hit {α : Type} (ttl : Int) (key : List Char) (v : α)
    (exp now : Int) (hnow : now < exp) :
    ((⟨ttl, [(key, v, exp)]⟩ : ContentCache α).get key now)
      = (some v, ⟨ttl, [(key, v, exp)]⟩) := by
  unfold ContentCache.get
  rw [List.find?_cons_of_pos _ (by simp)]
  show (if now < exp then
      (some v, (⟨ttl, [(key, v, exp)]⟩ : ContentCache α))
    else (none, ⟨ttl,
      ([(key, v, exp)] : List (List Char × α × Int)).filter (fun e => !(e.1 == key))⟩))
    = (some v, (⟨ttl, [(key, v, exp)]⟩ : ContentCache α))
  rw [if_pos hnow]

theorem fetch_cache_hit
    (hash_content : List Char → List Char)
    (requestsGet : List Char → Int → Except (List Char) PyResponse)
    (extract complete : List Char → List Char)
    (timeout now : Int) (url : List Char)
    (c : ContentCache ResultRecord) (v : ResultRecord)
    (sources : List (List Char))
    (hvalid : is_valid_url url = true)
    (hget : c.get (hash_content url) now = (some v, c))
    (ht : v.isTruthy = true) :
    fetch_and_summarize hash_content requestsGet extract complete timeout now url
      (⟨some c, sources⟩ : ResearcherState) = (v, ⟨some c, sources⟩, 0) := by
  unfold fetch_and_summarize
  rw [if_pos hvalid]
  show (match (c.get (hash_content url) now).1 with
    | some w =>
        if w.isTruthy then
          (w, (⟨some (c.get (hash_content url) now).2, sources⟩ : ResearcherState), 0)
        else fetch_and_summarize_miss hash_content requestsGet extract
          complete timeout now url ⟨some (c.get (hash_content url) now).2, sources⟩
    | none => fetch_and_summarize_miss hash_content requestsGet extract
        complete timeout now url ⟨some (c.get (hash_content url) now).2, sources⟩)
    = (v, (⟨some c, sources⟩ : ResearcherState), 0)
  rw [hget]
  simp [ht]

/-- C2: with caching enabled, calling `fetch_and_summarize` twice on the same
valid URL — the first call fetching successfully with non-empty extracted
content, the second call within the TTL — performs exactly one
fetch/summarize sequence: the first call fetches once and caches its
`SummaryResult` under `hash(url)`, and the second call performs zero fetches
and returns the cached record verbatim. -/
theorem c2_second_call_hits_cache
    (hash_content : List Char → List Char)
    (requestsGet : List Char → Int → Except (List Char) PyResponse)
    (extract complete : List Char → List Char)
    (timeout cache_ttl t1 t2 : Int) (url : List Char) (resp : PyResponse)
    (hvalid : is_valid_url url = true)
    (hfetch : requestsGet url timeout = .ok resp)
    (hcode : ¬ (400 ≤ resp.status_code ∧ resp.status_code < 600))
    (hcontent : extract resp.text ≠ [])
    (hwithin : t2 < t1 + cache_ttl) :
    ((fetch_and_summarize hash_content requestsGet extract complete timeout t1 url
        (WebResearcher.init true cache_ttl)).2.2 = 1) ∧
    ((fetch_and_summarize hash_content requestsGet extract complete timeout t2 url
        (fetch_and_summarize hash_content requestsGet extract complete timeout t1 url
          (WebResearcher.init true cache_ttl)).2.1).2.2 = 0) ∧
    ((fetch_and_summarize hash_content requestsGet extract complete timeout t2 url
        (fetch_and_summarize hash_content requestsGet extract complete timeout t1 url
          (WebResearcher.init true cache_ttl)).2.1).1
      = (fetch_and_summarize hash_content requestsGet extract complete timeout t1 url
          (WebResearcher.init true cache_ttl)).1) := by
  have hfr := fetch_url_content_ok requestsGet extract url timeout resp hfetch hcode
  have hne : ("success".toList : List Char) ≠ ("error".toList) := by decide
  have hstatus : ¬ (({ ResultRecord.empty with
      status := some ("success".toList), url := some url,
      content := some (extract resp.text),
      status_code := some resp.status_code,
      headers := some resp.headers } : ResultRecord).status
        = some ("error".toList)) := by
    intro hcontra
    exact hne (Option.some.inj hcontra)
  have hcontent2 : ¬ ((({ ResultRecord.empty with
      status := some ("success".toList), url := some url,
      content := some (extract resp.text),
      status_code := some resp.status_code,
      headers := some resp.headers } : ResultRecord).content).getD [] = []) :=
    hcontent
  have hcall1 : fetch_and_summarize hash_content requestsGet extract complete
      timeout t1 url (WebResearcher.init true cache_ttl)
      = ({ ResultRecord.empty with
            url := some url, status := some ("success".toList),
            summary := some (summarize_content complete (extract resp.text)),
            content_preview := some ((extract resp.text).take 500) },
          ⟨some ⟨cache_ttl,
            [(hash_content url,
              { ResultRecord.empty with
                url := some url, status := some ("success".toList),
                summary := some (summarize_content complete (extract resp.text)),
                content_preview := some ((extract resp.text).take 500) },
              t1 + cache_ttl)]⟩, [url]⟩, 1) := by
    unfold fetch_and_summarize
    rw [if_pos hvalid]
    show fetch_and_summarize_miss hash_content requestsGet extract complete
        timeout t1 url ⟨some ⟨cache_ttl, []⟩, []⟩ = _
    unfold fetch_and_summarize_miss
    rw [hfr, if_neg hstatus, if_neg hcontent2]
    rfl
  have hget := get_singleton_hit cache_ttl (hash_content url)
    ({ ResultRecord.empty with
        url := some url, status := some ("success".toList),
        summary := some (summarize_content complete (extract resp.text)),
        content_preview := some ((extract resp.text).take 500) } : ResultRecord)
    (t1 + cache_ttl) t2 hwithin
  have hcall2 : fetch_and_summarize hash_content requestsGet extract complete
      timeout t2 url
      (fetch_and_summarize hash_content requestsGet extract complete timeout t1 url
        (WebResearcher.init true cache_ttl)).2.1
      = ({ ResultRecord.empty with
            url := some url, status := some ("success".toList),
            summary := some (summarize_content complete (extract resp.text)),
            content_preview := some ((extract resp.text).take 500) },
          ⟨some ⟨cache_ttl,
            [(hash_content url,
              { ResultRecord.empty with
                url := some url, status := some ("success".toList),
                summary := some (summarize_content complete (extract resp.text)),
                content_preview := some ((extract resp.text).take 500) },
              t1 + cache_ttl)]⟩, [url]⟩, 0) := by
    rw [hcall1]
    exact fetch_cache_hit hash_content requestsGet extract complete timeout t2 url
      (⟨cache_ttl,
        [(hash_content url,
          { ResultRecord.empty with
            url := some url, status := some ("success".toList),
            summary := some (summarize_content complete (extract resp.text)),
            content_preview := some ((extract resp.text).take 500) },
          t1 + cache_ttl)]⟩ : ContentCache ResultRecord)
      ({ ResultRecord.empty with
          url := some url, status := some ("success".toList),
          summary := some (summarize_content complete (extract resp.text)),
          content_preview := some ((extract resp.text).take 500) } : ResultRecord)
      ([url]) hvalid hget rfl
  refine ⟨?_, ?_, ?_⟩
  · rw [hcall1]
  · rw [hcall2]
  · rw [hcall2, hcall1]

/-- C2 witness: fetching `http://a` twice (times `0` and `1`, TTL `3600`)
with concrete collaborator behaviours — the response body `"hello"`, the
identity extractor and a constant summariser. -/
theorem c2_witness :
    is_valid_url ("http://a".toList) = true ∧
    ((fun (_ : List Char) (_ : Int) =>
        (Except.ok (⟨200, [], ("hello".toList), []⟩ : PyResponse) :
          Except (List Char) PyResponse)) ("http://a".toList) 30
      = Except.ok (⟨200, [], ("hello".toList), []⟩ : PyResponse)) ∧
    (¬ (400 ≤ (⟨200, [], ("hello".toList), []⟩ : PyResponse).status_code ∧
        (⟨200, [], ("hello".toList), []⟩ : PyResponse).status_code < 600)) ∧
    ((fun (s : List Char) => s) (⟨200, [], ("hello".toList), []⟩ : PyResponse).text
      ≠ []) ∧
    ((1 : Int) < 0 + 3600) ∧
    (((fetch_and_summarize (fun s => s)
        (fun (_ : List Char) (_ : Int) =>
          (Except.ok (⟨200, [], ("hello".toList), []⟩ : PyResponse) :
            Except (List Char) PyResponse))
        (fun s => s) (fun _ => ("sum".toList)) 30 0 ("http://a".toList)
        (WebResearcher.init true 3600)).2.2 = 1) ∧
    ((fetch_and_summarize (fun s => s)
        (fun (_ : List Char) (_ : Int) =>
          (Except.ok (⟨200, [], ("hello".toList), []⟩ : PyResponse) :
            Except (List Char) PyResponse))
        (fun s => s) (fun _ => ("sum".toList)) 30 1 ("http://a".toList)
        (fetch_and_summarize (fun s => s)
          (fun (_ : List Char) (_ : Int) =>
            (Except.ok (⟨200, [], ("hello".toList), []⟩ : PyResponse) :
              Except (List Char) PyResponse))
          (fun s => s) (fun _ => ("sum".toList)) 30 0 ("http://a".toList)
          (WebResearcher.init true 3600)).2.1).2.2 = 0) ∧
    ((fetch_and_summarize (fun s => s)
        (fun (_ : List Char) (_ : Int) =>
          (Except.ok (⟨200, [], ("hello".toList), []⟩ : PyResponse) :
            Except (List Char) PyResponse))
        (fun s => s) (fun _ => ("sum".toList)) 30 1 ("http://a".toList)
        (fetch_and_summarize (fun s => s)
          (fun (_ : List Char) (_ : Int) =>
            (Except.ok (⟨200, [], ("hello".toList), []⟩ : PyResponse) :
              Except (List Char) PyResponse))
          (fun s => s) (fun _ => ("sum".toList)) 30 0 ("http://a".toList)
          (WebResearcher.init true 3600)).2.1).1
      = (fetch_and_summarize (fun s => s)
          (fun (_ : List Char) (_ : Int) =>
            (Except.ok (⟨200, [], ("hello".toList), []⟩ : PyResponse) :
              Except (List Char) PyResponse))
          (fun s => s) (fun _ => ("sum".toList)) 30 0 ("http://a".toList)
          (WebResearcher.init true 3600)).1)) :=
  ⟨by decide, rfl, by decide, by decide, by decide,
    c2_second_call_hits_cache (fun s => s)
      (fun (_ : List Char) (_ : Int) =>
        (Except.ok (⟨200, [], ("hello".toList), []⟩ : PyResponse) :
          Except (List Char) PyResponse))
      (fun s => s) (fun _ => ("sum".toList)) 30 3600 0 1 ("http://a".toList)
      (⟨200, [], ("hello".toList), []⟩ : PyResponse)
      (by decide) rfl (by decide) (by decide) (by decide)⟩

/- ===================== claim C1: the search prompt f-string ===================== -/

/-- A parsed standard format specification (the mini-language of Python's
`format()`): `[[fill]align][sign][#][0][width][,|_][.precision][type]`. -/
structure FormatSpec where
  fill : Option Char
  align : Option Char
  sign : Option Char
  alternate : Bool
  width : Option Nat
  thousands : Option Char
  precision : Option Nat
  type : Option Char
deriving DecidableEq

def isAlignChar (c : Char) : Bool :=
  c = '<' || c = '>' || c = '=' || c = '^'

def isSignChar (c : Char) : Bool :=
  c = '+' || c = '-' || c = ' '

def takeDigitsAux : Nat → List Char → Nat × List Char
  | acc, c :: r =>
      if c.isDigit then takeDigitsAux (acc * 10 + (c.toNat - ('0').toNat)) r
      else (acc, c :: r)
  | acc, [] => (acc, [])

def takeDigits (l : List Char) : Option Nat × List Char :=
  match l with
  | c :: r =>
      if c.isDigit then
        ((some (takeDigitsAux (c.toNat - ('0').toNat) r).1),
          (takeDigitsAux (c.toNat - ('0').toNat) r).2)
      else (none, l)
  | [] => (none, l)

/-- CPython's parse of a format specification (as in
`parse_internal_render_format_spec`): optional fill+align, sign, `#`,
zero-padding, width digits, grouping `,`/`_`, `.precision`, and at most one
trailing type character — anything longer raises
`ValueError: Invalid format specifier`. -/
def pyParseFormatSpec (spec : List Char) : Except (List Char) FormatSpec :=
  let step1 : Option Char × Option Char × List Char :=
    match spec with
    | a :: b :: r =>
        if isAlignChar b then (some a, some b, r)
        else if isAlignChar a then (none, some a, b :: r)
        else (none, none, a :: b :: r)
    | [a] => if isAlignChar a then (none, some a, []) else (none, none, [a])
    | [] => (none, none, [])
  let fill0 := step1.1
  let align0 := step1.2.1
  let step2 : Option Char × List Char :=
    match step1.2.2 with
    | c :: r => if isSignChar c then (some c, r) else (none, c :: r)
    | [] => (none, [])
  let sign := step2.1
  let step3 : Bool × List Char :=
    match step2.2 with
    | c :: r => if c = '#' then (true, r) else (false, c :: r)
    | [] => (false, [])
  let alternate := step3.1
  let step4 : Option Char × Option Char × List Char :=
    match step3.2 with
    | c :: r =>
        if fill0 = none && c = '0' then
          (some '0', (if align0 = none then some '=' else align0), r)
        else (fill0, align0, c :: r)
    | [] => (fill0, align0, [])
  let fill := step4.1
  let align := step4.2.1
  let step5 := takeDigits step4.2.2
  let width := step5.1
  let step6 : Option Char × List Char :=
    match step5.2 with
    | c :: r => if c = ',' || c = '_' then (some c, r) else (none, c :: r)
    | [] => (none, [])
  let thousands := step6.1
  match step6.2 with
  | '.' :: r =>
      match takeDigits r with
      | (none, _) => .error ("Format specifier missing precision".toList)
      | (some p, r2) =>
          match r2 with
          | [] => .ok ⟨fill, align, sign, alternate, width, thousands, some p, none⟩
          | [t] => .ok ⟨fill, align, sign, alternate, width, thousands, some p, some t⟩
          | _ => .error ("Invalid format specifier".toList)
  | rest =>
      match rest with
      | [] => .ok ⟨fill, align, sign, alternate, width, thousands, none, none⟩
      | [t] => .ok ⟨fill, align, sign, alternate, width, thousands, none, some t⟩
      | _ => .error ("Invalid format specifier".toList)

/-- Python `format(s, spec)` for a `str` value (`str.__format__`): the empty
spec is the fast path returning the string unchanged; otherwise the spec is
parsed and the string-specific restrictions apply (no sign, no alternate
form, no `=` alignment, no grouping, type `s` or absent), then precision
truncates and width pads with the fill character (default space, default
left alignment). -/
def pyFormatStr (s spec : List Char) : Except (List Char) (List Char) :=
  if spec = [] then .ok s
  else
    match pyParseFormatSpec spec with
    | .error e => .error e
    | .ok f =>
        if f.sign.isSome then
          .error ("Sign not allowed in string format specifier".toList)
        else if f.alternate then
          .error ("Alternate form (#) not allowed in string format specifier".toList)
        else if f.align = some '=' then
          .error ("'=' alignment not allowed in string format specifier".toList)
        else if f.thousands.isSome then
          .error ("Cannot specify a grouping option with 's'.".toList)
        else if !(f.type = none || f.type = some 's') then
          .error ("Unknown format code for object of type str".toList)
        else
          let t := match f.precision with
            | some p => s.take p
            | none => s
          let w := (f.width.getD 0) - t.length
          let fc := f.fill.getD ' '
          .ok (match f.align.getD '<' with
            | '>' => List.replicate w fc ++ t
            | '^' => List.replicate (w / 2) fc ++ t ++ List.replicate (w - w / 2) fc
            | _ => t ++ List.replicate w fc)

/-- Python `str(n)` for an int (the rendering of an f-string field with empty
format spec). -/
def pyIntRepr (n : Int) : List Char :=
  (toString n).toList

/-- The format spec of the third replacement field of the `search` prompt
f-string: the JSON example in the prompt text is written with bare braces, so
Python parses it as a replacement field whose expression is the string
literal `"url"` and whose format spec is everything after the first
top-level colon. -/
def searchFieldSpec : List Char :=
  (" \"https://...\", \"title\": \"...\"").toList

/-- The prompt construction of `WebResearcher.search`: the f-string has three
replacement fields — `num_results` (empty spec, rendered as `str(int)`),
`query` (empty spec), and the accidental field from the JSON example, which
formats the string `url` with `searchFieldSpec`. -/
def searchPrompt (query : List Char) (num_results : Int) :
    Except (List Char) (List Char) := do
  let f1 := pyIntRepr num_results
  let f2 ← pyFormatStr query []
  let f3 ← pyFormatStr ("url".toList) searchFieldSpec
  .ok (("Generate ".toList) ++ f1 ++
    (" relevant URLs for the following search query:\n        \nQuery: ".toList) ++
    f2 ++
    ("\n\nReturn a JSON list of URLs. Each URL should be realistic and relevant to the query.\nFormat: [".toList) ++
    f3 ++
    (", ...]\n\nOnly return the JSON list, no other text.".toList))

/-- One `{"url": ..., "title": ...}` candidate of a parsed search reply. -/
structure SearchRec where
  url : Option (List Char)
  title : Option (List Char)
deriving DecidableEq

/-- `WebResearcher.search`: build the prompt (this is where the stray
replacement field raises `ValueError`), send it to the model (oracle
`complete`) and parse the reply (oracle `parseJson` standing for `json.loads`
together with the `isinstance(results, list)` check; the `except` clause maps
any parse failure to `[]`). -/
def WebResearcher.search
    (complete : List Char → List Char)
    (parseJson : List Char → Option (List SearchRec))
    (query : List Char) (num_results : Int) :
    Except (List Char) (List SearchRec) := do
  let prompt ← searchPrompt query num_results
  .ok ((parseJson (complete prompt)).getD [])

/-- The result record of `research_topic`; optional fields model the keys
present in the Python dict (the error record carries only
`topic/status/error`). -/
structure ResearchRecord where
  topic : Option (List Char)
  status : Option (List Char)
  error : Option (List Char)
  findings : Option (List ResultRecord)
  analysis : Option (List Char)
  sources : Option (List (List Char))
  timestamp : Option Int

/-- The prompt of the final `_generate_analysis` model call. -/
def analysisPrompt (topic combined : List Char) : List Char :=
  ("Based on the following research findings about \"".toList) ++ topic ++
    ("\", provide a comprehensive analysis:\n\n".toList) ++ combined ++
    ("\n\nPlease provide:\n1. Key insights and trends\n2. Main takeaways\n3. Important considerations".toList)

/-- `WebResearcher._generate_analysis`: keep the summaries (or error texts)
of the findings whose status is `success`, and either return the fixed
fallback message or issue one model call on the combined text. -/
def generate_analysis (complete : List Char → List Char)
    (topic : List Char) (findings : List ResultRecord) : List Char :=
  let summaries := (findings.filter (fun f => f.status = some ("success".toList))).map
    (fun f => f.summary.getD (f.error.getD []))
  if summaries = [] then
    ("Unable to generate analysis from available findings.".toList)
  else
    complete (analysisPrompt topic (List.intercalate ("\n\n".toList) summaries))

/-- `WebResearcher.research_topic`: search (which raises while building its
prompt), bail out with an error record on an empty result list, run the
per-URL pipeline over every candidate with a `url` key collecting every
result into `findings`, generate the analysis and assemble the record.
(The `print` calls and the `research_history` append have no bearing on the
claims and are not modelled; `now` stands for `datetime.now()`.) -/
def research_topic
    (hash_content : List Char → List Char)
    (requestsGet : List Char → Int → Except (List Char) PyResponse)
    (extract complete : List Char → List Char)
    (parseJson : List Char → Option (List SearchRec))
    (timeout now : Int) (topic : List Char) (num_sources : Int)
    (st : ResearcherState) :
    Except (List Char) (ResearchRecord × ResearcherState) := do
  let search_results ← WebResearcher.search complete parseJson topic num_sources
  if search_results = [] then
    .ok (⟨some topic, some ("error".toList),
      some ("No search results found".toList), none, none, none, none⟩, st)
  else
    let folded := search_results.foldl
      (fun (acc : List ResultRecord × ResearcherState) (r : SearchRec) =>
        match r.url with
        | some u =>
            ((acc.1 ++ [(fetch_and_summarize hash_content requestsGet extract
                complete timeout now u acc.2).1]),
              (fetch_and_summarize hash_content requestsGet extract
                complete timeout now u acc.2).2.1)
        | none => acc)
      ([], st)
    .ok (⟨some topic, some ("success".toList), none, some folded.1,
      some (generate_analysis complete topic folded.1),
      some folded.2.sources, some now⟩, folded.2)

/-- C1 (as the code actually behaves): for every topic, number of sources,
state and oracle behaviour, `search` — and therefore `research_topic`, which
begins with it — raises `ValueError: Invalid format specifier` while building
the search prompt, because the braces of the JSON example in the f-string are
parsed as a replacement field whose format spec is not valid.  No error
record is ever returned, contradicting the claim that failures are
represented as returned result records rather than thrown. -/
theorem c1_search_always_raises
    (hash_content : List Char → List Char)
    (requestsGet : List Char → Int → Except (List Char) PyResponse)
    (extract complete : List Char → List Char)
    (parseJson : List Char → Option (List SearchRec))
    (timeout now : Int) (query topic : List Char) (num_results num_sources : Int)
    (st : ResearcherState) :
    (WebResearcher.search complete parseJson query num_results
      = .error ("Invalid format specifier".toList)) ∧
    (research_topic hash_content requestsGet extract complete parseJson
        timeout now topic num_sources st
      = .error ("Invalid format specifier".toList)) :=
  ⟨rfl, rfl⟩
